import Mathlib

/-!
Shallow embedding of the `ratescompare` electricity-cost calculator.

The repository has two entry points:
* `calculate.py` — the wide-format variant: one CSV row per day, one column
  per 30-minute interval; plans are flat (`per_kwh_rate`) or banded.
* `eip13a.py` — the import/export variant: one CSV row per half-hourly
  reading with a direction flag ("I" import, "X" export), export rates and
  a percentage discount.

Modelling choices:
* Clock times are minutes since midnight (`ℕ`); `parse_time_str` of the
  source turns "HH:MM" into a timedelta, embedded here as `hours*60+minutes`.
* Money and energy amounts are `ℚ` (the source uses Python floats).
* A possibly-NaN pandas value is `Option ℚ`, `none` standing for NaN:
  `optAdd`/`optMul` propagate `none` exactly as IEEE arithmetic propagates
  NaN, and `nanSum` is pandas `sum` with its default `skipna=True`.
-/

/-- A rate band after time resolution: `start`/`stop` are the parsed
`start`/`end` fields in minutes since midnight, `rate` is currency per kWh.
(`stop` models the source's `end` field, which is a keyword in Lean.) -/
structure Band where
  start : ℕ
  stop : ℕ
  rate : ℚ
deriving Repr, DecidableEq

/-- `parse_time_str` from both sources: "HH:MM" becomes a duration, embedded
as minutes since midnight. -/
def parse_time_str (hours minutes : ℕ) : ℕ :=
  hours * 60 + minutes

/-- `calculate_band_cost` from `eip13a.py` (lines 14-23): scan the bands in
list order; a band whose parsed end is zero duration is reinterpreted as
ending at 24:00; return `kwh * rate` of the first band whose half-open
window contains the interval time, else 0.0. -/
def calculate_band_cost (kwh : ℚ) (interval_time : ℕ) : List Band → ℚ
  | [] => 0
  | band :: rest =>
      if band.start ≤ interval_time ∧
          interval_time < (if band.stop = 0 then 24 * 60 else band.stop) then
        kwh * band.rate
      else
        calculate_band_cost kwh interval_time rest

/-- Spec-side band membership: the half-open window `[start, end)` contains
`t`, after substituting 24 hours for a zero-duration resolved end. -/
def bandContains (t : ℕ) (band : Band) : Bool :=
  decide (band.start ≤ t ∧ t < (if band.stop = 0 then 24 * 60 else band.stop))

/-- Spec-side first-match evaluation: `quantity * rate` of the first band
in list order containing `t`, or 0 when none does. -/
def firstMatchCost (quantity : ℚ) (t : ℕ) (bands : List Band) : ℚ :=
  match bands.find? (bandContains t) with
  | some band => quantity * band.rate
  | none => 0

/-- The weekday/weekend band lists of a banded plan. -/
structure Bands where
  weekday : List Band
  weekend : List Band
deriving Repr, DecidableEq

/-- NaN-propagating addition of possibly-NaN values. -/
def optAdd : Option ℚ → Option ℚ → Option ℚ
  | some a, some b => some (a + b)
  | _, _ => none

/-- NaN-propagating multiplication of possibly-NaN values. -/
def optMul : Option ℚ → Option ℚ → Option ℚ
  | some a, some b => some (a * b)
  | _, _ => none

/-- pandas `sum` with its default `skipna=True`: NaN entries are skipped,
and an all-NaN column sums to 0. -/
def nanSum (xs : List (Option ℚ)) : ℚ :=
  (xs.filterMap id).sum

/-- The inner loop of `calculate_band_cost` in `calculate.py` (lines 42-48):
scan `band_ranges` in order and add `kwh * rate` of the first band whose
window (with the 24:00 substitution) contains the interval time, breaking at
the first match; the accumulator is left unchanged when no band matches. -/
def scan_bands (total kwh : Option ℚ) (interval_time : ℕ) : List Band → Option ℚ
  | [] => total
  | band :: rest =>
      if band.start ≤ interval_time ∧
          interval_time < (if band.stop = 0 then 24 * 60 else band.stop) then
        optAdd total (optMul kwh (some band.rate))
      else
        scan_bands total kwh interval_time rest

/-- The outer loop of `calculate_band_cost` in `calculate.py` (lines 39-48):
interval `i` sits at offset `30*i` minutes; the running total starts at 0.0. -/
def band_cost_go (bands : List Band) : ℕ → Option ℚ → List (Option ℚ) → Option ℚ
  | _, total, [] => total
  | i, total, kwh :: rest =>
      band_cost_go bands (i + 1) (scan_bands total kwh (30 * i) bands) rest

/-- `calculate_band_cost` from `calculate.py` (lines 14-49): the daily cost
of one row of interval quantities against a band list. -/
def calculate_band_cost_row (row : List (Option ℚ)) (bands : List Band) : Option ℚ :=
  band_cost_go bands 0 (some 0) row

/-- Spec-side daily band cost: the sum over slots of the Band Cost
Evaluator's result, slot `i` at offset `30*i` minutes. -/
def bandDaySum (bands : List Band) : ℕ → List ℚ → ℚ
  | _, [] => 0
  | i, q :: rest => calculate_band_cost q (30 * i) bands + bandDaySum bands (i + 1) rest

/-- A wide-format rate plan as read in `calculate.py` `main` (lines 106-109),
after applying the `.get` defaults. -/
structure PlanW where
  daily_rate : ℚ
  per_kwh_rate : Option ℚ
  bands : Option Bands
deriving Repr, DecidableEq

/-- The per-day branch of `calculate.py` `main` (lines 114-130): banded plans
use `calculate_band_cost` on the row plus the daily rate; flat plans use
`daily_rate + (row sum) * per_kwh_rate` with a missing rate read as 0.0. -/
def dailyCostWide (p : PlanW) (row : List (Option ℚ)) (is_weekend : Bool) : Option ℚ :=
  match p.bands with
  | some bs =>
      optAdd (calculate_band_cost_row row (if is_weekend then bs.weekend else bs.weekday))
        (some p.daily_rate)
  | none =>
      some (p.daily_rate + nanSum row * p.per_kwh_rate.getD 0)

/-- The `export_rates` mapping of a plan in `eip13a.py`: optional weekday and
weekend band lists and an optional flat rate (`.get("flat", 0.0)` reads a
missing flat rate as 0.0). -/
structure ExportRates where
  weekday : Option (List Band)
  weekend : Option (List Band)
  flat : Option ℚ
deriving Repr, DecidableEq

/-- An import/export rate plan as read in `eip13a.py` `main` (lines 79-84),
after applying the `.get` defaults. -/
structure PlanIE where
  daily_rate : ℚ
  per_kwh_rate : Option ℚ
  bands : Option Bands
  fixed_discount : ℚ
  export_rates : Option ExportRates
deriving Repr, DecidableEq

/-- One DET reading after `load_eiep13a`: the direction has already been
trimmed and uppercased (line 45), `kwh` has been coerced with NaN filled by
0.0 (line 44), and `interval` is the reading's minutes since midnight
(`hour * 60 + minute`, lines 69-74). -/
structure Reading where
  direction : String
  kwh : ℚ
  interval : ℕ
deriving Repr, DecidableEq

/-- One iteration of the reading loop in `eip13a.py` `main` (lines 92-115):
the accumulator is the `(imports, exports)` pair. Import readings are priced
by bands or the flat per-kWh rate; export readings are priced by the bucket's
export bands when that bucket holds a non-empty list (Python truthiness),
else by the flat export rate defaulting to 0.0; with no `export_rates` the
export is ignored, and any other direction falls through untouched. -/
def processReading (p : PlanIE) (is_weekend : Bool) (acc : ℚ × ℚ) (r : Reading) : ℚ × ℚ :=
  if r.direction = "I" then
    match p.bands with
    | some bs =>
        (acc.1 + calculate_band_cost r.kwh r.interval
          (if is_weekend then bs.weekend else bs.weekday), acc.2)
    | none => (acc.1 + r.kwh * p.per_kwh_rate.getD 0, acc.2)
  else if r.direction = "X" then
    match p.export_rates with
    | some er =>
        match (if is_weekend then er.weekend else er.weekday) with
        | some bl =>
            if bl.isEmpty then (acc.1, acc.2 + r.kwh * er.flat.getD 0)
            else (acc.1, acc.2 + calculate_band_cost r.kwh r.interval bl)
        | none => (acc.1, acc.2 + r.kwh * er.flat.getD 0)
    | none => acc
  else acc

/-- The `(imports, exports)` totals of one day's readings, starting from
`(0.0, 0.0)` as in `eip13a.py` line 90. -/
def dayTotals (p : PlanIE) (is_weekend : Bool) (readings : List Reading) : ℚ × ℚ :=
  readings.foldl (processReading p is_weekend) (0, 0)

/-- One Daily Cost Record of the import/export variant. -/
structure DailyIE where
  daily_cost : ℚ
  imports : ℚ
  exports : ℚ
deriving Repr, DecidableEq

/-- `eip13a.py` lines 117-118: `daily_cost = daily_rate + imports - exports`. -/
def dailyCostIE (p : PlanIE) (is_weekend : Bool) (readings : List Reading) : DailyIE :=
  let t := dayTotals p is_weekend readings
  { daily_cost := p.daily_rate + t.1 - t.2, imports := t.1, exports := t.2 }

/-- One day of wide-format input: its weekend flag (`day.weekday() >= 5`)
and the interval-column values (NaN as `none`). Days arrive grouped by
calendar month, so the month label lives on the group. -/
structure DayRow where
  weekend : Bool
  intervals : List (Option ℚ)
deriving Repr, DecidableEq

/-- One day of import/export input: weekend flag and that day's readings. -/
structure DayIE where
  weekend : Bool
  readings : List Reading
deriving Repr, DecidableEq

/-- A monthly summary row of the wide-format variant (`calculate.py`
lines 136-159). -/
structure MonthlyW where
  Month : String
  Monthly_kWh : ℚ
  Days_in_month : ℕ
  Fixed_cost : ℚ
  Variable_cost : ℚ
  Total_cost : ℚ
deriving Repr, DecidableEq

/-- The wide-format monthly aggregation of `calculate.py` lines 136-148:
from one month's daily kWh totals and daily costs, `Fixed_cost` is
`daily_rate * len`, `Variable_cost` is `sum(daily_cost) - daily_rate * len`
(pandas `sum` skipping NaN), and `Total_cost` is their sum (line 146). -/
def mkMonthlyW (daily_rate : ℚ) (month : String) (kwhs : List ℚ)
    (costs : List (Option ℚ)) : MonthlyW :=
  let n := costs.length
  { Month := month
    Monthly_kWh := kwhs.sum
    Days_in_month := n
    Fixed_cost := daily_rate * n
    Variable_cost := nanSum costs - daily_rate * n
    Total_cost := daily_rate * n + (nanSum costs - daily_rate * n) }

/-- A monthly summary row of the import/export variant (`eip13a.py`
lines 123-161). -/
structure MonthlyIE where
  Month : String
  Days_in_month : ℕ
  Fixed_cost : ℚ
  Variable_cost : ℚ
  Credits : ℚ
  Discounts : ℚ
  Total_cost : ℚ
  totalcostnotadjusted : ℚ
deriving Repr, DecidableEq

/-- The import/export monthly aggregation of `eip13a.py` lines 123-148:
`Fixed_cost = daily_rate * len`, `Variable_cost = sum(imports)`,
`Credits = sum(exports)`; `totalcost` (line 135) is `Fixed + Variable` and is
stored as `totalcostnotadjusted`; `Total_cost` starts as
`Fixed + Variable - Credits` and, when `fixed_discount` is truthy, is scaled
by `1 - discount/100` with `Discounts` set to the pre-scaling total times
`discount/100`. -/
def mkMonthlyIE (p : PlanIE) (month : String) (days : List DailyIE) : MonthlyIE :=
  let n := days.length
  let fixed : ℚ := p.daily_rate * n
  let var : ℚ := (days.map (fun d => d.imports)).sum
  let credits : ℚ := (days.map (fun d => d.exports)).sum
  let totalcost := fixed + var
  let total₀ := fixed + var - credits
  { Month := month
    Days_in_month := n
    Fixed_cost := fixed
    Variable_cost := var
    Credits := credits
    Discounts := if p.fixed_discount ≠ 0 then total₀ * (p.fixed_discount / 100) else 0
    Total_cost := if p.fixed_discount ≠ 0 then total₀ * (1 - p.fixed_discount / 100) else total₀
    totalcostnotadjusted := totalcost }

/-- `.round(2)` of the source's summary rows: round to 2 decimal places. -/
def round2 (q : ℚ) : ℚ :=
  (round (q * 100) : ℤ) / 100

/-- The per-month rows of one wide-format plan (`calculate.py` lines
114-148): one `MonthlyW` per month group, from that month's daily kWh sums
and daily costs. -/
def monthlyRowsW (p : PlanW) (groups : List (String × List DayRow)) : List MonthlyW :=
  groups.map (fun g =>
    mkMonthlyW p.daily_rate g.1
      (g.2.map (fun d => nanSum d.intervals))
      (g.2.map (fun d => dailyCostWide p d.intervals d.weekend)))

/-- The TOTAL summary row of `calculate.py` lines 161-172: each numeric
field is the column sum over the monthly rows, rounded to 2 decimal places
(the day count is an integer sum). -/
def mkTotalW (rows : List MonthlyW) : MonthlyW :=
  { Month := "TOTAL"
    Monthly_kWh := round2 ((rows.map (fun r => r.Monthly_kWh)).sum)
    Days_in_month := (rows.map (fun r => r.Days_in_month)).sum
    Fixed_cost := round2 ((rows.map (fun r => r.Fixed_cost)).sum)
    Variable_cost := round2 ((rows.map (fun r => r.Variable_cost)).sum)
    Total_cost := round2 ((rows.map (fun r => r.Total_cost)).sum) }

/-- One wide-format plan's block: its monthly rows with the TOTAL row
concatenated at the end (`calculate.py` line 173). -/
def planBlockW (p : PlanW) (groups : List (String × List DayRow)) : List MonthlyW :=
  monthlyRowsW p groups ++ [mkTotalW (monthlyRowsW p groups)]

/-- The combined output of `calculate.py` lines 179-182: each plan's block
appended once, in plan declaration order. -/
def mainOutputW (plans : List PlanW) (groups : List (String × List DayRow)) : List MonthlyW :=
  (plans.map (fun p => planBlockW p groups)).flatten

/-- The per-month rows of one import/export plan (`eip13a.py` lines
86-148). -/
def monthlyRowsIE (p : PlanIE) (groups : List (String × List DayIE)) : List MonthlyIE :=
  groups.map (fun g =>
    mkMonthlyIE p g.1 (g.2.map (fun d => dailyCostIE p d.weekend d.readings)))

/-- The TOTAL summary row of `eip13a.py` lines 162-177. -/
def mkTotalIE (rows : List MonthlyIE) : MonthlyIE :=
  { Month := "TOTAL"
    Days_in_month := (rows.map (fun r => r.Days_in_month)).sum
    Fixed_cost := round2 ((rows.map (fun r => r.Fixed_cost)).sum)
    Variable_cost := round2 ((rows.map (fun r => r.Variable_cost)).sum)
    Credits := round2 ((rows.map (fun r => r.Credits)).sum)
    Discounts := round2 ((rows.map (fun r => r.Discounts)).sum)
    Total_cost := round2 ((rows.map (fun r => r.Total_cost)).sum)
    totalcostnotadjusted := round2 ((rows.map (fun r => r.totalcostnotadjusted)).sum) }

/-- One import/export plan's block: monthly rows plus the TOTAL row
(`eip13a.py` line 178). -/
def planBlockIE (p : PlanIE) (groups : List (String × List DayIE)) : List MonthlyIE :=
  monthlyRowsIE p groups ++ [mkTotalIE (monthlyRowsIE p groups)]

/-- The combined output of `eip13a.py` lines 199-206: the plan loop runs
`all_results.append(monthly)` twice (lines 201 and 203), so each plan's
block enters the concatenated output twice. -/
def mainOutputIE (plans : List PlanIE) (groups : List (String × List DayIE)) : List MonthlyIE :=
  (plans.map (fun p => planBlockIE p groups ++ planBlockIE p groups)).flatten

/-- The CSV-header configuration of the wide-format variant
(`config.yaml`): the date column name and the ordered interval columns. -/
structure ConfigW where
  date_column : String
  interval_columns : List String
deriving Repr, DecidableEq

/-- The wide-format run of `calculate.py` `main` (lines 82-183), from the
CSV's column header onwards: a missing date column raises
`ValueError` (line 84), then any missing interval column raises
`ValueError` (line 91), both before any cost row is computed or any output
written; otherwise the combined output table is produced. -/
def mainWide (config : ConfigW) (csvColumns : List String) (plans : List PlanW)
    (groups : List (String × List DayRow)) : Except String (List MonthlyW) :=
  if config.date_column ∉ csvColumns then
    Except.error "Date column not found in CSV file."
  else if (config.interval_columns.filter (fun c => c ∉ csvColumns)) ≠ [] then
    Except.error "Interval columns missing in CSV"
  else
    Except.ok (mainOutputW plans groups)

/-! ## Helper lemmas -/

/-- The eip13a evaluator is first-match evaluation over `bandContains`. -/
lemma calculate_band_cost_eq_firstMatchCost (q : ℚ) (t : ℕ) (bands : List Band) :
    calculate_band_cost q t bands = firstMatchCost q t bands := by
  induction bands with
  | nil => rfl
  | cons b rest ih =>
      by_cases h : b.start ≤ t ∧ t < (if b.stop = 0 then 24 * 60 else b.stop)
      · rw [calculate_band_cost, if_pos h, firstMatchCost,
          List.find?_cons_of_pos _ (by simpa [bandContains] using h)]
      · rw [calculate_band_cost, if_neg h, firstMatchCost,
          List.find?_cons_of_neg _ (by simpa [bandContains] using h), ih, firstMatchCost]

/-- A zero quantity always evaluates to zero cost. -/
lemma calculate_band_cost_zero (t : ℕ) (bands : List Band) :
    calculate_band_cost 0 t bands = 0 := by
  induction bands with
  | nil => rfl
  | cons b rest ih =>
      rw [calculate_band_cost]
      by_cases h : b.start ≤ t ∧ t < (if b.stop = 0 then 24 * 60 else b.stop)
      · rw [if_pos h, zero_mul]
      · rw [if_neg h]
        exact ih

/-- On parsed (non-NaN) values the inner scan adds the eip13a evaluator's
result to the accumulator. -/
lemma scan_bands_some (a k : ℚ) (t : ℕ) (bands : List Band) :
    scan_bands (some a) (some k) t bands = some (a + calculate_band_cost k t bands) := by
  induction bands with
  | nil => simp [scan_bands, calculate_band_cost]
  | cons b rest ih =>
      rw [scan_bands, calculate_band_cost]
      by_cases h : b.start ≤ t ∧ t < (if b.stop = 0 then 24 * 60 else b.stop)
      · rw [if_pos h, if_pos h]
        rfl
      · rw [if_neg h, if_neg h]
        exact ih

/-- On a row of parsed values the outer loop accumulates `bandDaySum`. -/
lemma band_cost_go_some (bands : List Band) (qs : List ℚ) :
    ∀ (i : ℕ) (a : ℚ),
      band_cost_go bands i (some a) (qs.map some) = some (a + bandDaySum bands i qs) := by
  induction qs with
  | nil => intro i a; simp [band_cost_go, bandDaySum]
  | cons q rest ih =>
      intro i a
      rw [List.map_cons, band_cost_go, bandDaySum, scan_bands_some, ih, add_assoc]

/-- The wide-format row evaluator on parsed values is the per-slot sum of
the Band Cost Evaluator. -/
lemma calculate_band_cost_row_some (qs : List ℚ) (bands : List Band) :
    calculate_band_cost_row (qs.map some) bands = some (bandDaySum bands 0 qs) := by
  rw [calculate_band_cost_row, band_cost_go_some, zero_add]

/-- NaN is absorbing on the left of NaN-propagating addition. -/
lemma optAdd_none_left (y : Option ℚ) : optAdd none y = none := by
  cases y <;> rfl

/-- NaN is absorbing on the right of NaN-propagating addition. -/
lemma optAdd_none_right (x : Option ℚ) : optAdd x none = none := by
  cases x <;> rfl

/-- NaN is absorbing on the left of NaN-propagating multiplication. -/
lemma optMul_none_left (y : Option ℚ) : optMul none y = none := by
  cases y <;> rfl

/-- pandas `sum` over a fully-parsed column is the plain sum. -/
lemma nanSum_map_some (qs : List ℚ) : nanSum (qs.map some) = qs.sum := by
  induction qs with
  | nil => rfl
  | cons q rest ih =>
      rw [List.map_cons, nanSum, List.filterMap_cons]
      rw [nanSum] at ih
      simp only [id, List.sum_cons, ih, List.sum_cons]

/-- The outer loop processes an appended suffix after the prefix, with the
slot index advanced by the prefix length. -/
lemma band_cost_go_append (bands : List Band) (xs : List (Option ℚ)) :
    ∀ (ys : List (Option ℚ)) (i : ℕ) (total : Option ℚ),
      band_cost_go bands i total (xs ++ ys) =
        band_cost_go bands (i + xs.length) (band_cost_go bands i total xs) ys := by
  induction xs with
  | nil => intro ys i total; simp [band_cost_go]
  | cons x rest ih =>
      intro ys i total
      simp only [List.cons_append, band_cost_go, List.length_cons, List.append_eq]
      rw [ih]
      have hidx : i + 1 + rest.length = i + (rest.length + 1) := by
        omega
      rw [hidx]

/-- The inner scan leaves the accumulator alone when no band matches. -/
lemma scan_bands_no_match (total kwh : Option ℚ) (t : ℕ) (bands : List Band)
    (h : bands.find? (bandContains t) = none) :
    scan_bands total kwh t bands = total := by
  induction bands with
  | nil => rfl
  | cons b rest ih =>
      rw [List.find?_cons] at h
      rw [scan_bands]
      by_cases hb : b.start ≤ t ∧ t < (if b.stop = 0 then 24 * 60 else b.stop)
      · rw [show bandContains t b = true by simpa [bandContains] using hb] at h
        exact absurd h (by simp)
      · rw [if_neg hb]
        rw [show bandContains t b = false by simpa [bandContains] using hb] at h
        exact ih h

/-- The inner scan adds `optMul kwh rate` of the first matching band. -/
lemma scan_bands_match (total kwh : Option ℚ) (t : ℕ) (bands : List Band) (b : Band)
    (h : bands.find? (bandContains t) = some b) :
    scan_bands total kwh t bands = optAdd total (optMul kwh (some b.rate)) := by
  induction bands with
  | nil => simp [List.find?] at h
  | cons b₀ rest ih =>
      rw [List.find?_cons] at h
      rw [scan_bands]
      by_cases hb : b₀.start ≤ t ∧ t < (if b₀.stop = 0 then 24 * 60 else b₀.stop)
      · rw [show bandContains t b₀ = true by simpa [bandContains] using hb] at h
        simp only [Option.some.injEq] at h
        rw [if_pos hb, h]
      · rw [if_neg hb]
        rw [show bandContains t b₀ = false by simpa [bandContains] using hb] at h
        exact ih h

/-- A NaN accumulator is absorbing for the inner scan. -/
lemma scan_bands_none (kwh : Option ℚ) (t : ℕ) (bands : List Band) :
    scan_bands none kwh t bands = none := by
  induction bands with
  | nil => rfl
  | cons b rest ih =>
      rw [scan_bands]
      by_cases hb : b.start ≤ t ∧ t < (if b.stop = 0 then 24 * 60 else b.stop)
      · rw [if_pos hb, optAdd_none_left]
      · rw [if_neg hb]
        exact ih

/-- A NaN accumulator is absorbing for the outer loop. -/
lemma band_cost_go_none (bands : List Band) (row : List (Option ℚ)) :
    ∀ i : ℕ, band_cost_go bands i none row = none := by
  induction row with
  | nil => intro i; rfl
  | cons x rest ih =>
      intro i
      rw [band_cost_go, scan_bands_none]
      exact ih (i + 1)

/-! ## Claim theorems -/

/-- C1: for every quantity `q`, interval offset `t` and ordered band list,
the Band Cost Evaluator returns `q * rate` of the first band in list order
whose half-open window `[start, end)` contains `t`, after substituting 24
hours for any band whose resolved end is zero duration, and 0 when no band's
window contains `t`; in particular, for two overlapping bands both
containing `t`, the result uses the rate of the band appearing first. -/
theorem band_cost_first_match :
    (∀ (q : ℚ) (t : ℕ) (bands : List Band),
       calculate_band_cost q t bands = firstMatchCost q t bands) ∧
    (∀ (q : ℚ) (t : ℕ) (b₁ b₂ : Band) (rest : List Band),
       bandContains t b₁ = true → bandContains t b₂ = true →
       calculate_band_cost q t (b₁ :: b₂ :: rest) = q * b₁.rate) := by
  refine ⟨calculate_band_cost_eq_firstMatchCost, ?_⟩
  intro q t b₁ b₂ rest h₁ _
  rw [calculate_band_cost_eq_firstMatchCost, firstMatchCost,
    List.find?_cons_of_pos _ h₁]

/-- Witness for C1 at a concrete overlapping-bands fixture: the band
`00:00-00:00` (i.e. 24:00) at rate 2 precedes `00:00-24:00` at rate 3; both
contain offset 60, and the evaluator returns `5 * 2`. -/
theorem band_cost_first_match_witness :
    calculate_band_cost 5 60 [⟨0, 0, 2⟩, ⟨0, 24 * 60, 3⟩] = 5 * 2 :=
  band_cost_first_match.2 5 60 ⟨0, 0, 2⟩ ⟨0, 24 * 60, 3⟩ []
    (by decide) (by decide)

/-- C2: for a wide-format day whose interval quantities all parsed, a banded
plan's daily cost is the sum over 30-minute slots (slot `i` at offset
`30*i`) of the Band Cost Evaluator against the weekday/weekend list chosen
by `is_weekend`, plus `daily_rate`; a flat plan's daily cost is
`daily_rate + (sum of quantities) * per_kwh_rate`; and concretely, with
`daily_rate = 1`, `per_kwh_rate = 0.30` and interval sum 10, the day costs
4. -/
theorem daily_cost_wide_spec :
    (∀ (p : PlanW) (bs : Bands) (qs : List ℚ) (w : Bool), p.bands = some bs →
       dailyCostWide p (qs.map some) w =
         some (bandDaySum (if w then bs.weekend else bs.weekday) 0 qs + p.daily_rate)) ∧
    (∀ (p : PlanW) (qs : List ℚ) (w : Bool), p.bands = none →
       dailyCostWide p (qs.map some) w =
         some (p.daily_rate + qs.sum * p.per_kwh_rate.getD 0)) ∧
    (∀ (qs : List ℚ) (w : Bool), qs.sum = 10 →
       dailyCostWide ⟨1, some (3 / 10), none⟩ (qs.map some) w = some 4) := by
  refine ⟨?_, ?_, ?_⟩
  · intro p bs qs w hp
    simp only [dailyCostWide, hp, calculate_band_cost_row_some]
    rfl
  · intro p qs w hp
    simp only [dailyCostWide, hp, nanSum_map_some]
  · intro qs w hsum
    simp only [dailyCostWide, nanSum_map_some, hsum]
    norm_num

/-- Witness for C2: a banded day, a flat day, and the concrete
`1 + 10 * 0.30 = 4` scenario. -/
theorem daily_cost_wide_spec_witness :
    dailyCostWide ⟨1, none, some ⟨[⟨0, 0, 1 / 4⟩], [⟨0, 0, 1 / 2⟩]⟩⟩ ([2].map some) false =
      some (bandDaySum [⟨0, 0, 1 / 4⟩] 0 [2] + 1) ∧
    dailyCostWide ⟨1, some (3 / 10), none⟩ ([10].map some) false =
      some (1 + (10 : ℚ) * (3 / 10)) ∧
    dailyCostWide ⟨1, some (3 / 10), none⟩ ([4, 6].map some) true = some 4 := by
  refine ⟨daily_cost_wide_spec.1 _ ⟨[⟨0, 0, 1 / 4⟩], [⟨0, 0, 1 / 2⟩]⟩ [2] false rfl, ?_, ?_⟩
  · have h := daily_cost_wide_spec.2.1 ⟨1, some (3 / 10), none⟩ [10] false rfl
    simpa using h
  · exact daily_cost_wide_spec.2.2 [4, 6] true (by norm_num)

/-- C3: every month row of a wide-format plan satisfies
`Total_cost = Fixed_cost + Variable_cost`; every month row of an
import/export plan has `Total_cost` equal to the pre-discount total
`Fixed_cost + Variable_cost - Credits` scaled by `1 - discount/100`, and
`Discounts` equal to that pre-discount total times `discount/100`
(with zero discount both equalities hold with the trivial factors). -/
theorem monthly_total_cost_invariant :
    (∀ (daily_rate : ℚ) (month : String) (kwhs : List ℚ) (costs : List (Option ℚ)),
       (mkMonthlyW daily_rate month kwhs costs).Total_cost =
         (mkMonthlyW daily_rate month kwhs costs).Fixed_cost +
           (mkMonthlyW daily_rate month kwhs costs).Variable_cost) ∧
    (∀ (p : PlanIE) (month : String) (days : List DailyIE),
       (mkMonthlyIE p month days).Total_cost =
           ((mkMonthlyIE p month days).Fixed_cost + (mkMonthlyIE p month days).Variable_cost -
             (mkMonthlyIE p month days).Credits) * (1 - p.fixed_discount / 100) ∧
         (mkMonthlyIE p month days).Discounts =
           ((mkMonthlyIE p month days).Fixed_cost + (mkMonthlyIE p month days).Variable_cost -
             (mkMonthlyIE p month days).Credits) * (p.fixed_discount / 100)) := by
  refine ⟨fun _ _ _ _ => rfl, ?_⟩
  intro p month days
  simp only [mkMonthlyIE]
  constructor <;> split_ifs with h
  · rfl
  · push_neg at h
    rw [h]
    ring
  · rfl
  · push_neg at h
    rw [h]
    ring

/-- C4: in both variants, a plan's block is its monthly rows followed by
exactly one appended row whose `Month` is "TOTAL" and whose numeric fields
are the column-wise sums of the prior monthly rows rounded to 2 decimal
places (the integer day count is summed unrounded). -/
theorem total_row_spec :
    (∀ (p : PlanW) (groups : List (String × List DayRow)),
       planBlockW p groups =
         monthlyRowsW p groups ++
           [{ Month := "TOTAL"
              Monthly_kWh := round2 (((monthlyRowsW p groups).map (fun r => r.Monthly_kWh)).sum)
              Days_in_month := ((monthlyRowsW p groups).map (fun r => r.Days_in_month)).sum
              Fixed_cost := round2 (((monthlyRowsW p groups).map (fun r => r.Fixed_cost)).sum)
              Variable_cost := round2 (((monthlyRowsW p groups).map (fun r => r.Variable_cost)).sum)
              Total_cost := round2 (((monthlyRowsW p groups).map (fun r => r.Total_cost)).sum) }]) ∧
    (∀ (p : PlanIE) (groups : List (String × List DayIE)),
       planBlockIE p groups =
         monthlyRowsIE p groups ++
           [{ Month := "TOTAL"
              Days_in_month := ((monthlyRowsIE p groups).map (fun r => r.Days_in_month)).sum
              Fixed_cost := round2 (((monthlyRowsIE p groups).map (fun r => r.Fixed_cost)).sum)
              Variable_cost :=
                round2 (((monthlyRowsIE p groups).map (fun r => r.Variable_cost)).sum)
              Credits := round2 (((monthlyRowsIE p groups).map (fun r => r.Credits)).sum)
              Discounts := round2 (((monthlyRowsIE p groups).map (fun r => r.Discounts)).sum)
              Total_cost := round2 (((monthlyRowsIE p groups).map (fun r => r.Total_cost)).sum)
              totalcostnotadjusted :=
                round2 (((monthlyRowsIE p groups).map (fun r => r.totalcostnotadjusted)).sum) }]) :=
  ⟨fun _ _ => rfl, fun _ _ => rfl⟩

/-- C5 (code bug): in the import/export variant the plan loop appends each
plan's monthly table twice (`eip13a.py` lines 201 and 203), so for a single
configured plan the combined output contains its block — and in particular
its TOTAL row — twice, where the wide-format variant contains it once. -/
theorem duplicate_plan_block_bug :
    mainOutputIE [⟨0, none, none, 0, none⟩] [("2024-01", [⟨false, []⟩])] =
        planBlockIE ⟨0, none, none, 0, none⟩ [("2024-01", [⟨false, []⟩])] ++
          planBlockIE ⟨0, none, none, 0, none⟩ [("2024-01", [⟨false, []⟩])] ∧
    ((mainOutputIE [⟨0, none, none, 0, none⟩] [("2024-01", [⟨false, []⟩])]).filter
        (fun r => r.Month == "TOTAL")).length = 2 ∧
    ((mainOutputW [⟨0, none, none⟩] [("2024-01", [⟨false, []⟩])]).filter
        (fun r => r.Month == "TOTAL")).length = 1 := by
  refine ⟨?_, by decide, by decide⟩
  simp [mainOutputIE]

/-- C6: an EXPORT reading is credited against the bucket's export band list
when one is configured (non-empty), else at the flat export rate when one
exists, else not at all (a missing flat rate is read as 0, and missing
`export_rates` skips the reading); and every day's cost is
`daily_rate + imports - exports`. -/
theorem export_credit_spec :
    (∀ (p : PlanIE) (w : Bool) (acc : ℚ × ℚ) (r : Reading) (er : ExportRates)
        (bl : List Band),
       r.direction = "X" → p.export_rates = some er →
       (if w then er.weekend else er.weekday) = some bl → bl ≠ [] →
       processReading p w acc r = (acc.1, acc.2 + calculate_band_cost r.kwh r.interval bl)) ∧
    (∀ (p : PlanIE) (w : Bool) (acc : ℚ × ℚ) (r : Reading) (er : ExportRates) (f : ℚ),
       r.direction = "X" → p.export_rates = some er →
       ((if w then er.weekend else er.weekday).getD []).isEmpty = true → er.flat = some f →
       processReading p w acc r = (acc.1, acc.2 + r.kwh * f)) ∧
    (∀ (p : PlanIE) (w : Bool) (acc : ℚ × ℚ) (r : Reading) (er : ExportRates),
       r.direction = "X" → p.export_rates = some er →
       ((if w then er.weekend else er.weekday).getD []).isEmpty = true → er.flat = none →
       processReading p w acc r = acc) ∧
    (∀ (p : PlanIE) (w : Bool) (acc : ℚ × ℚ) (r : Reading),
       r.direction = "X" → p.export_rates = none → processReading p w acc r = acc) ∧
    (∀ (p : PlanIE) (w : Bool) (readings : List Reading),
       (dailyCostIE p w readings).daily_cost =
         p.daily_rate + (dailyCostIE p w readings).imports -
           (dailyCostIE p w readings).exports) := by
  refine ⟨?_, ?_, ?_, ?_, fun _ _ _ => rfl⟩
  · intro p w acc r er bl hX hER hbl hne
    have hbe : bl.isEmpty = false := by
      simpa using hne
    simp [processReading, hX, hER, hbl, hbe]
  · intro p w acc r er f hX hER hem hf
    rcases hbk : (if w then er.weekend else er.weekday) with _ | bl
    · simp [processReading, hX, hER, hbk, hf]
    · rw [hbk] at hem
      simp only [Option.getD_some] at hem
      simp [processReading, hX, hER, hbk, hem, hf]
  · intro p w acc r er hX hER hem hf
    rcases hbk : (if w then er.weekend else er.weekday) with _ | bl
    · simp [processReading, hX, hER, hbk, hf]
    · rw [hbk] at hem
      simp only [Option.getD_some] at hem
      simp [processReading, hX, hER, hbk, hem, hf]
  · intro p w acc r hX hER
    simp [processReading, hX, hER]

/-- Witness for C6: one reading `("X", 3 kWh, offset 0)` credited by a
weekday export band at rate 2, by a flat rate 1/2, by nothing when no export
pricing applies, and with `export_rates` absent. -/
theorem export_credit_spec_witness :
    processReading ⟨0, none, none, 0, some ⟨some [⟨0, 0, 2⟩], none, none⟩⟩ false (1, 1)
        ⟨"X", 3, 0⟩ = (1, 1 + calculate_band_cost 3 0 [⟨0, 0, 2⟩]) ∧
    processReading ⟨0, none, none, 0, some ⟨none, none, some (1 / 2)⟩⟩ false (1, 1)
        ⟨"X", 3, 0⟩ = (1, 1 + 3 * (1 / 2)) ∧
    processReading ⟨0, none, none, 0, some ⟨none, none, none⟩⟩ false (1, 1)
        ⟨"X", 3, 0⟩ = (1, 1) ∧
    processReading ⟨0, none, none, 0, none⟩ false (1, 1) ⟨"X", 3, 0⟩ = (1, 1) := by
  refine ⟨?_, ?_, ?_, ?_⟩
  · exact export_credit_spec.1 _ false (1, 1) ⟨"X", 3, 0⟩ _ [⟨0, 0, 2⟩] rfl rfl rfl
      (by decide)
  · exact export_credit_spec.2.1 _ false (1, 1) ⟨"X", 3, 0⟩ _ (1 / 2) rfl rfl rfl rfl
  · exact export_credit_spec.2.2.1 _ false (1, 1) ⟨"X", 3, 0⟩ _ rfl rfl rfl rfl
  · exact export_credit_spec.2.2.2.1 _ false (1, 1) ⟨"X", 3, 0⟩ rfl rfl

/-- C7 counterexample: a plan with a flat export rate 1 and one exported kWh
yields a month row whose `totalcostnotadjusted` is 0 while
`Fixed_cost + Variable_cost - Credits` is -1: the stored field omits the
credit subtraction. -/
theorem totalcostnotadjusted_counterexample :
    (monthlyRowsIE ⟨0, none, none, 0, some ⟨none, none, some 1⟩⟩
          [("2024-01", [⟨false, [⟨"X", 1, 0⟩]⟩])]).map
        (fun r => (r.totalcostnotadjusted, r.Fixed_cost + r.Variable_cost - r.Credits)) =
      [(0, -1)] ∧ (0 : ℚ) ≠ -1 := by
  constructor
  · simp [monthlyRowsIE, mkMonthlyIE, dailyCostIE, dayTotals, processReading,
      List.foldl_cons, List.foldl_nil]
  · norm_num

/-- C7 amended: `totalcostnotadjusted` of every month row equals
`Fixed_cost + Variable_cost` — the total before export credits and before
any discount — and the TOTAL row sums those values rounded to 2 decimals. -/
theorem totalcostnotadjusted_amended :
    (∀ (p : PlanIE) (month : String) (days : List DailyIE),
       (mkMonthlyIE p month days).totalcostnotadjusted =
         (mkMonthlyIE p month days).Fixed_cost + (mkMonthlyIE p month days).Variable_cost) ∧
    (∀ rows : List MonthlyIE,
       (mkTotalIE rows).totalcostnotadjusted =
         round2 ((rows.map (fun r => r.totalcostnotadjusted)).sum)) :=
  ⟨fun _ _ _ => rfl, fun _ => rfl⟩

/-- C8 counterexample: under a band covering the whole day, a single NaN
interval makes the banded day's cost NaN (`none`) instead of contributing
nothing — the same day without the interval costs 0. -/
theorem nan_banded_counterexample :
    dailyCostWide ⟨0, none, some ⟨[⟨0, 0, 1⟩], [⟨0, 0, 1⟩]⟩⟩ [none] false = none ∧
    dailyCostWide ⟨0, none, some ⟨[⟨0, 0, 1⟩], [⟨0, 0, 1⟩]⟩⟩ [] false = some 0 := by
  constructor
  · simp [dailyCostWide, calculate_band_cost_row, band_cost_go, scan_bands, optMul,
      optAdd_none_left, optAdd_none_right]
  · simp [dailyCostWide, calculate_band_cost_row, band_cost_go, optAdd]

/-- C8 amended: an unparseable quantity contributes nothing in the
import/export variant (it is coerced to 0, and a zero-kWh reading leaves the
running totals unchanged) and in the wide-format flat path (the row sum
skips NaN). In the wide-format banded path it contributes nothing only when
its slot matches no band (then it behaves like a parsed 0); when its slot
falls in some band, the whole day's cost becomes NaN. -/
theorem nan_handling_amended :
    (∀ (p : PlanIE) (w : Bool) (acc : ℚ × ℚ) (r : Reading), r.kwh = 0 →
       processReading p w acc r = acc) ∧
    (∀ xs ys : List (Option ℚ), nanSum (xs ++ none :: ys) = nanSum (xs ++ ys)) ∧
    (∀ (p : PlanW) (bs : Bands) (w : Bool) (xs ys : List (Option ℚ)),
       p.bands = some bs →
       (if w then bs.weekend else bs.weekday).find? (bandContains (30 * xs.length)) = none →
       dailyCostWide p (xs ++ none :: ys) w = dailyCostWide p (xs ++ some 0 :: ys) w) ∧
    (∀ (p : PlanW) (bs : Bands) (w : Bool) (xs ys : List (Option ℚ)) (b : Band),
       p.bands = some bs →
       (if w then bs.weekend else bs.weekday).find? (bandContains (30 * xs.length)) = some b →
       dailyCostWide p (xs ++ none :: ys) w = none) := by
  refine ⟨?_, ?_, ?_, ?_⟩
  · intro p w acc r h0
    obtain ⟨a1, a2⟩ := acc
    rw [processReading, h0]
    by_cases hI : r.direction = "I"
    · rw [if_pos hI]
      rcases hp : p.bands with _ | bs
      · simp [hp]
      · simp [hp, calculate_band_cost_zero]
    · rw [if_neg hI]
      by_cases hX : r.direction = "X"
      · rw [if_pos hX]
        rcases hp : p.export_rates with _ | er
        · simp [hp]
        · rcases hbk : (if w then er.weekend else er.weekday) with _ | bl
          · simp [hp, hbk]
          · rcases hbl : bl.isEmpty with _ | _
            · simp [hp, hbk, hbl, calculate_band_cost_zero]
            · simp [hp, hbk, hbl]
      · rw [if_neg hX]
  · intro xs ys
    simp [nanSum, List.filterMap_append, List.filterMap_cons]
  · intro p bs w xs ys hp hfind
    simp only [dailyCostWide, hp]
    have h₁ : calculate_band_cost_row (xs ++ none :: ys)
          (if w then bs.weekend else bs.weekday) =
        calculate_band_cost_row (xs ++ some 0 :: ys)
          (if w then bs.weekend else bs.weekday) := by
      rw [calculate_band_cost_row, calculate_band_cost_row,
        band_cost_go_append, band_cost_go_append, band_cost_go, band_cost_go,
        scan_bands_no_match _ _ _ _ (by simpa using hfind),
        scan_bands_no_match _ _ _ _ (by simpa using hfind)]
    rw [h₁]
  · intro p bs w xs ys b hp hfind
    simp only [dailyCostWide, hp]
    have h₁ : calculate_band_cost_row (xs ++ none :: ys)
        (if w then bs.weekend else bs.weekday) = none := by
      rw [calculate_band_cost_row, band_cost_go_append, band_cost_go,
        scan_bands_match _ _ _ _ _ (by simpa using hfind), optMul_none_left,
        optAdd_none_right, band_cost_go_none]
    rw [h₁, optAdd_none_left]

/-- Witness for C8 (amended): a zero-kWh import leaves the totals unchanged;
`nanSum` skips a NaN between parsed values; a NaN at offset 0 outside the
only band (starting 01:00) behaves like a parsed 0; a NaN inside an all-day
band turns the day's cost into NaN. -/
theorem nan_handling_amended_witness :
    processReading ⟨0, some 1, none, 0, none⟩ false (1, 2) ⟨"I", 0, 0⟩ = (1, 2) ∧
    nanSum ([some 1] ++ none :: [some 2]) = nanSum ([some 1] ++ [some 2]) ∧
    dailyCostWide ⟨0, none, some ⟨[⟨60, 120, 1⟩], []⟩⟩ ([] ++ none :: []) false =
      dailyCostWide ⟨0, none, some ⟨[⟨60, 120, 1⟩], []⟩⟩ ([] ++ some 0 :: []) false ∧
    dailyCostWide ⟨0, none, some ⟨[⟨0, 0, 1⟩], []⟩⟩ ([] ++ none :: []) false = none := by
  refine ⟨?_, ?_, ?_, ?_⟩
  · exact nan_handling_amended.1 ⟨0, some 1, none, 0, none⟩ false (1, 2) ⟨"I", 0, 0⟩ rfl
  · exact nan_handling_amended.2.1 [some 1] [some 2]
  · exact nan_handling_amended.2.2.1 ⟨0, none, some ⟨[⟨60, 120, 1⟩], []⟩⟩
      ⟨[⟨60, 120, 1⟩], []⟩ false [] [] rfl (by decide)
  · exact nan_handling_amended.2.2.2 ⟨0, none, some ⟨[⟨0, 0, 1⟩], []⟩⟩
      ⟨[⟨0, 0, 1⟩], []⟩ false [] [] ⟨0, 0, 1⟩ rfl (by decide)

/-- C9: when the configured date column, or any configured interval column,
is absent from the CSV's columns, the wide-format run fails with an error
before any cost row or output is produced. -/
theorem missing_column_error :
    ∀ (config : ConfigW) (cols : List String) (plans : List PlanW)
      (groups : List (String × List DayRow)),
      (config.date_column ∉ cols ∨ ∃ c ∈ config.interval_columns, c ∉ cols) →
      ∃ e, mainWide config cols plans groups = Except.error e := by
  intro config cols plans groups h
  rw [mainWide]
  by_cases hd : config.date_column ∉ cols
  · rw [if_pos hd]
    exact ⟨_, rfl⟩
  · rw [if_neg hd]
    rcases h with h | ⟨c, hc, hcn⟩
    · exact absurd h hd
    · have hne : (config.interval_columns.filter (fun c => c ∉ cols)) ≠ [] := by
        intro hnil
        have hmem : c ∈ config.interval_columns.filter (fun c => c ∉ cols) := by
          simp [List.mem_filter, hc, hcn]
        rw [hnil] at hmem
        exact absurd hmem (List.not_mem_nil c)
      rw [if_pos hne]
      exact ⟨_, rfl⟩

/-- Witness for C9: a config naming interval column "i1" against a CSV that
only has a "date" column fails with an error. -/
theorem missing_column_error_witness :
    ∃ e, mainWide ⟨"date", ["i1"]⟩ ["date"] [] [] = Except.error e :=
  missing_column_error ⟨"date", ["i1"]⟩ ["date"] [] []
    (Or.inr ⟨"i1", by decide, by decide⟩)

/-- C10: a reading whose (trimmed, uppercased) direction is neither "I" nor
"X" leaves the running totals untouched, and inserting it anywhere in a
day's reading list changes neither the imports/exports totals nor the daily
cost — it is silently ignored. -/
theorem unknown_direction_ignored :
    ∀ (p : PlanIE) (w : Bool) (acc : ℚ × ℚ) (r : Reading) (xs ys : List Reading),
      r.direction ≠ "I" → r.direction ≠ "X" →
      processReading p w acc r = acc ∧
      dayTotals p w (xs ++ r :: ys) = dayTotals p w (xs ++ ys) ∧
      dailyCostIE p w (xs ++ r :: ys) = dailyCostIE p w (xs ++ ys) := by
  intro p w acc r xs ys hI hX
  have hpr : ∀ a : ℚ × ℚ, processReading p w a r = a := by
    intro a
    rw [processReading, if_neg hI, if_neg hX]
  have hfold : dayTotals p w (xs ++ r :: ys) = dayTotals p w (xs ++ ys) := by
    rw [dayTotals, dayTotals, List.foldl_append, List.foldl_append, List.foldl_cons, hpr]
  exact ⟨hpr acc, hfold, by simp only [dailyCostIE, hfold]⟩

/-- Witness for C10: a direction-"Q" reading is ignored between an import
reading and the end of the day. -/
theorem unknown_direction_ignored_witness :
    processReading ⟨1, some 2, none, 0, none⟩ false (3, 4) ⟨"Q", 5, 0⟩ = (3, 4) ∧
    dayTotals ⟨1, some 2, none, 0, none⟩ false ([⟨"I", 1, 0⟩] ++ ⟨"Q", 5, 0⟩ :: []) =
      dayTotals ⟨1, some 2, none, 0, none⟩ false ([⟨"I", 1, 0⟩] ++ []) ∧
    dailyCostIE ⟨1, some 2, none, 0, none⟩ false ([⟨"I", 1, 0⟩] ++ ⟨"Q", 5, 0⟩ :: []) =
      dailyCostIE ⟨1, some 2, none, 0, none⟩ false ([⟨"I", 1, 0⟩] ++ []) :=
  unknown_direction_ignored ⟨1, some 2, none, 0, none⟩ false (3, 4) ⟨"Q", 5, 0⟩
    [⟨"I", 1, 0⟩] [] (by decide) (by decide)
